import Mathlib

/-!
Shallow embedding of `src/ml_service.py` (the `MLService` vision adapter of the
moments repository) together with theorems about its three public operations:
`generate_alt_text`, `detect_objects` and `get_detailed_analysis`, and the
response-reduction helpers they share.

Modelling conventions:
* The remote vision client (`self.client`) is an `Option Client`; `none` is the
  degraded state produced when credentials are missing or construction failed.
* Every remote call and the local image-file read may fail, which Python
  surfaces as an exception caught by the operation's `try`/`except`; each is
  modelled as `Except Unit _`, and the operation body is the corresponding
  nested match, falling back exactly where the Python handler does.
* Confidence scores and colour channels are floats in the source; they are
  modelled as rationals, which is exact for every comparison the code makes
  (the only one is the strict `> 0.5` threshold).
* Python dict results are modelled as association lists `List (String x Value)`
  so that the field names themselves (in particular the degraded-path `colors`
  versus the success-path `dominant_colors`) are observable.
* `max_results` caps sent with a request parametrise the opaque remote service
  and are not modelled; the service's reply is whatever list the `Client`
  function returns.
-/

namespace MomentsML

/-- A label annotation returned by label detection: a description and a
confidence score (entries of `label_annotations` in `ml_service.py`). -/
structure Label where
  description : String
  score : ℚ
deriving DecidableEq, Repr

/-- A localized object annotation returned by object localization: a name and a
confidence score (entries of `localized_object_annotations`). -/
structure LocalizedObj where
  name : String
  score : ℚ
deriving DecidableEq, Repr

/-- A landmark annotation (entries of `landmark_annotations`); the code only
reads its description. -/
structure Landmark where
  description : String
deriving DecidableEq, Repr

/-- A logo annotation (entries of `logo_annotations`); the code only reads its
description. -/
structure Logo where
  description : String
deriving DecidableEq, Repr

/-- A text annotation (entries of `text_annotations`); the code only reads its
description. -/
structure TextAnn where
  description : String
deriving DecidableEq, Repr

/-- An RGB colour value (`color.color` in `_extract_colors_from_response`). -/
structure RGB where
  red : ℚ
  green : ℚ
  blue : ℚ
deriving DecidableEq, Repr

/-- One dominant-colour entry: a colour and its prevalence score
(entries of `image_properties_annotation.dominant_colors.colors`). -/
structure DomColor where
  color : RGB
  score : ℚ
deriving DecidableEq, Repr

/-- The `dominant_colors` message of the image-properties annotation. -/
structure DominantColors where
  colors : List DomColor
deriving DecidableEq, Repr

/-- The image-properties annotation (`image_properties_annotation`). -/
structure ImageProps where
  dominant_colors : DominantColors
deriving DecidableEq, Repr

/-- The combined response of `client.annotate_image` used by
`get_detailed_analysis`: six independently-optional annotation groups.
The image-properties group is an `Option` because the code branches on its
presence (`if response.image_properties_annotation:`). -/
structure AnnotateImageResponse where
  label_annotations : List Label
  localized_object_annotations : List LocalizedObj
  landmark_annotations : List Landmark
  logo_annotations : List Logo
  text_annotations : List TextAnn
  image_properties : Option ImageProps
deriving DecidableEq, Repr

/-- The remote vision client: each detection method maps image content to a
response, or fails (modelling a raised exception). -/
structure Client where
  label_detection : String → Except Unit (List Label)
  landmark_detection : String → Except Unit (List Landmark)
  text_detection : String → Except Unit (List TextAnn)
  object_localization : String → Except Unit (List LocalizedObj)
  logo_detection : String → Except Unit (List Logo)
  annotate_image : String → Except Unit AnnotateImageResponse

/-- The adapter state: the file-reading environment (`io.open(...).read()`,
which may raise) and the optional client handle set up in `__init__`. -/
structure MLService where
  read_file : String → Except Unit String
  client : Option Client

/-- Python's `str.lower()` as used by the source on annotation texts,
modelled as a characterwise ASCII lowercase map (structurally recursive so
that the kernel can evaluate it on concrete strings). -/
def str_lower (s : String) : String :=
  ⟨s.data.map Char.toLower⟩

/-- The duplicate-removal loop of `detect_objects` (lines 107-112 of
`ml_service.py`): walk the list keeping a `seen` set, appending each element
not yet seen. `list(dict.fromkeys(..))` in `_extract_objects_from_response`
performs the same first-occurrence-preserving reduction. -/
def dedup_seen : List String → List String → List String
  | _, [] => []
  | seen, x :: xs =>
    if x ∈ seen then dedup_seen seen xs else x :: dedup_seen (x :: seen) xs

/-- Remove duplicates preserving first occurrence, starting from an empty
`seen` set. -/
def remove_duplicates (l : List String) : List String :=
  dedup_seen [] l

/-- `generate_alt_text` (lines 24-67). Absent client: fixed fallback. Otherwise
read the file and issue label, landmark and text detection; any failure falls
back. Build the parts list exactly as the source: the first landmark's
description when landmarks exist, and the top-3-label sentence only when
labels are nonempty and landmarks are empty; join with `". "`, falling back
when no part was produced. The text response is bound but unused, as in the
source. -/
def generate_alt_text (svc : MLService) (image_path : String) : String :=
  match svc.client with
  | none => "Image uploaded by user"
  | some client =>
    match svc.read_file image_path with
    | .error _ => "Image uploaded by user"
    | .ok content =>
      match client.label_detection content with
      | .error _ => "Image uploaded by user"
      | .ok labels =>
        match client.landmark_detection content with
        | .error _ => "Image uploaded by user"
        | .ok landmarks =>
          match client.text_detection content with
          | .error _ => "Image uploaded by user"
          | .ok _texts =>
            let alt_text_parts : List String :=
              (match landmarks with
               | lm :: _ => [lm.description]
               | [] => []) ++
              (if labels ≠ [] ∧ landmarks = [] then
                ["Image containing " ++
                  String.intercalate ", " ((labels.take 3).map Label.description)]
               else [])
            if alt_text_parts ≠ [] then
              String.intercalate ". " alt_text_parts
            else
              "Image uploaded by user"

/-- `detect_objects` (lines 69-118). Absent client: empty list. Otherwise read
the file and issue label detection, object localization, landmark detection
and logo detection; any failure yields the empty list. Collect, in this order:
label descriptions (lowercased, score strictly above 0.5), object names
(lowercased, score strictly above 0.5), all landmark descriptions (lowercased),
all logo descriptions (lowercased); then remove duplicates preserving order. -/
def detect_objects (svc : MLService) (image_path : String) : List String :=
  match svc.client with
  | none => []
  | some client =>
    match svc.read_file image_path with
    | .error _ => []
    | .ok content =>
      match client.label_detection content with
      | .error _ => []
      | .ok labels =>
        match client.object_localization content with
        | .error _ => []
        | .ok objs =>
          match client.landmark_detection content with
          | .error _ => []
          | .ok landmarks =>
            match client.logo_detection content with
            | .error _ => []
            | .ok logos =>
              let objects : List String :=
                (labels.filter (fun l => decide (l.score > (0.5 : ℚ)))).map
                  (fun l => str_lower l.description)
                ++ (objs.filter (fun o => decide (o.score > (0.5 : ℚ)))).map
                  (fun o => str_lower o.name)
                ++ landmarks.map (fun lm => str_lower lm.description)
                ++ logos.map (fun lg => str_lower lg.description)
              remove_duplicates objects

/-- A value of one field of the analysis-record dict: a string, a tag list, or
a colour list. -/
inductive FieldValue where
  | s (v : String)
  | tags (v : List String)
  | cols (v : List (ℚ × ℚ × ℚ × ℚ))
deriving DecidableEq, Repr

/-- The analysis record returned by `get_detailed_analysis`, as an ordered
association list so that field NAMES are observable (the degraded path uses
`colors` where the success path uses `dominant_colors`). A colour entry
`(red, green, blue, score)` models the dict built at lines 203-208. -/
abbrev AnalysisRecord := List (String × FieldValue)

/-- The fixed degraded record returned by `get_detailed_analysis` when the
client is absent or any step fails (lines 122-128 and 165-170): note the
field name `colors`. -/
def degraded_record : AnalysisRecord :=
  [("alt_text", FieldValue.s "Image uploaded by user"),
   ("objects", FieldValue.tags []),
   ("colors", FieldValue.cols []),
   ("text", FieldValue.s "")]

/-- `_build_alt_text_from_response` (lines 172-182): first landmark's
description when landmarks exist, else the top-3-label sentence when labels
exist, else nothing; join with `". "`, falling back when empty. -/
def build_alt_text_from_response (response : AnnotateImageResponse) : String :=
  let parts : List String :=
    match response.landmark_annotations with
    | lm :: _ => [lm.description]
    | [] =>
      if response.label_annotations ≠ [] then
        ["Image containing " ++ String.intercalate ", "
          ((response.label_annotations.take 3).map Label.description)]
      else []
  if parts ≠ [] then String.intercalate ". " parts else "Image uploaded by user"

/-- `_extract_objects_from_response` (lines 184-196): labels with score
strictly above 0.5 (descriptions lowercased) then localized objects with score
strictly above 0.5 (names lowercased), deduplicated preserving first
occurrence. Landmarks and logos are not consulted. -/
def extract_objects_from_response (response : AnnotateImageResponse) : List String :=
  remove_duplicates
    ((response.label_annotations.filter (fun l => decide (l.score > (0.5 : ℚ)))).map
      (fun l => str_lower l.description)
     ++ (response.localized_object_annotations.filter
          (fun o => decide (o.score > (0.5 : ℚ)))).map
      (fun o => str_lower o.name))

/-- `_extract_colors_from_response` (lines 198-209): when the image-properties
annotation is present, the first three dominant colours mapped to
`(red, green, blue, score)` unmodified; otherwise empty. -/
def extract_colors_from_response (response : AnnotateImageResponse) :
    List (ℚ × ℚ × ℚ × ℚ) :=
  match response.image_properties with
  | none => []
  | some props =>
    (props.dominant_colors.colors.take 3).map
      (fun c => (c.color.red, c.color.green, c.color.blue, c.score))

/-- `get_detailed_analysis` (lines 120-170). Absent client: degraded record.
Otherwise read the file and issue the single combined `annotate_image` call;
any failure yields the degraded record. On success, build the record with the
three helpers and the first text annotation's description, under the field
name `dominant_colors` (not `colors`). -/
def get_detailed_analysis (svc : MLService) (image_path : String) : AnalysisRecord :=
  match svc.client with
  | none => degraded_record
  | some client =>
    match svc.read_file image_path with
    | .error _ => degraded_record
    | .ok content =>
      match client.annotate_image content with
      | .error _ => degraded_record
      | .ok response =>
        [("alt_text", FieldValue.s (build_alt_text_from_response response)),
         ("objects", FieldValue.tags (extract_objects_from_response response)),
         ("dominant_colors", FieldValue.cols (extract_colors_from_response response)),
         ("text", FieldValue.s
            (match response.text_annotations with
             | t :: _ => t.description
             | [] => ""))]

/-! ## Helper lemmas about the deduplication loop -/

/-- The deduplicated list is a sublist of the input: deduplication only drops
elements, never reorders. -/
theorem dedup_seen_sublist (seen l : List String) : List.Sublist (dedup_seen seen l) l := by
  induction l generalizing seen with
  | nil => simp [dedup_seen]
  | cons x xs ih =>
    by_cases hx : x ∈ seen
    · simp only [dedup_seen, if_pos hx]
      exact (ih seen).cons x
    · simp only [dedup_seen, if_neg hx]
      exact (ih (x :: seen)).cons₂ x

/-- Membership in the deduplicated list: exactly the input's elements not
already in the `seen` set. -/
theorem mem_dedup_seen (seen l : List String) (x : String) :
    x ∈ dedup_seen seen l ↔ x ∈ l ∧ x ∉ seen := by
  induction l generalizing seen with
  | nil => simp [dedup_seen]
  | cons y ys ih =>
    by_cases hy : y ∈ seen
    · rw [show dedup_seen seen (y :: ys) = dedup_seen seen ys from by
            simp [dedup_seen, if_pos hy],
          ih seen]
      constructor
      · rintro ⟨hm, hn⟩
        exact ⟨List.mem_cons_of_mem _ hm, hn⟩
      · rintro ⟨hm, hn⟩
        rcases List.mem_cons.mp hm with rfl | hm
        · exact absurd hy hn
        · exact ⟨hm, hn⟩
    · rw [show dedup_seen seen (y :: ys) = y :: dedup_seen (y :: seen) ys from by
            simp [dedup_seen, if_neg hy]]
      constructor
      · intro h
        rcases List.mem_cons.mp h with rfl | h
        · exact ⟨List.mem_cons_self _ _, hy⟩
        · rcases (ih _).mp h with ⟨hm, hn⟩
          exact ⟨List.mem_cons_of_mem _ hm,
                 fun hc => hn (List.mem_cons_of_mem _ hc)⟩
      · rintro ⟨hm, hn⟩
        rcases List.mem_cons.mp hm with rfl | hm
        · exact List.mem_cons_self _ _
        · by_cases hxy : x = y
          · exact hxy ▸ List.mem_cons_self _ _
          · refine List.mem_cons_of_mem _ ((ih _).mpr ⟨hm, ?_⟩)
            intro hc
            rcases List.mem_cons.mp hc with h | h
            · exact hxy h
            · exact hn h

/-- The deduplicated list has no duplicates. -/
theorem dedup_seen_nodup (seen l : List String) : (dedup_seen seen l).Nodup := by
  induction l generalizing seen with
  | nil => simp [dedup_seen]
  | cons x xs ih =>
    by_cases hx : x ∈ seen
    · simpa [dedup_seen, if_pos hx] using ih seen
    · simp only [dedup_seen, if_neg hx, List.nodup_cons]
      refine ⟨fun hc => ?_, ih (x :: seen)⟩
      exact ((mem_dedup_seen _ _ _).mp hc).2 (List.mem_cons_self x seen)

/-- The source's seen-set loop agrees with the core library's
first-occurrence-preserving `List.eraseDups.loop`. -/
theorem eraseDups_loop_eq (l bs : List String) :
    List.eraseDups.loop l bs = bs.reverse ++ dedup_seen bs l := by
  induction l generalizing bs with
  | nil => simp [List.eraseDups.loop, dedup_seen]
  | cons x xs ih =>
    by_cases hx : x ∈ bs
    · simp [List.eraseDups.loop, List.elem_eq_mem, hx, dedup_seen, ih]
    · simp [List.eraseDups.loop, List.elem_eq_mem, hx, dedup_seen, ih]

/-- The source's duplicate removal is exactly `List.eraseDups`, the library's
first-occurrence-preserving deduplication. -/
theorem remove_duplicates_eq_eraseDups (l : List String) :
    remove_duplicates l = l.eraseDups := by
  simp [remove_duplicates, List.eraseDups, eraseDups_loop_eq]

/-- Joining a one-element list with any separator yields the element. -/
theorem intercalate_singleton (s x : String) : String.intercalate s [x] = x := rfl

/-- The threshold literal of the source is the rational one half. -/
theorem half_eq : (0.5 : ℚ) = 1 / 2 := by norm_num

/-- Membership in the duplicate-free list is membership in the input. -/
theorem mem_remove_duplicates (l : List String) (x : String) :
    x ∈ remove_duplicates l ↔ x ∈ l := by
  simp [remove_duplicates, mem_dedup_seen]

/-- The pre-deduplication tag list built at lines 82-105 of `ml_service.py`:
thresholded lowercased label descriptions, then thresholded lowercased object
names, then all lowercased landmark descriptions, then all lowercased logo
descriptions, in that fixed order. -/
def collected_tags (labels : List Label) (objs : List LocalizedObj)
    (lms : List Landmark) (lgs : List Logo) : List String :=
  (labels.filter (fun l => decide (l.score > (0.5 : ℚ)))).map
      (fun l => str_lower l.description)
    ++ (objs.filter (fun o => decide (o.score > (0.5 : ℚ)))).map
      (fun o => str_lower o.name)
    ++ lms.map (fun lm => str_lower lm.description)
    ++ lgs.map (fun lg => str_lower lg.description)

/-- On the all-calls-succeed path, `detect_objects` is the deduplication of
the four thresholded, lowercased annotation groups in source order. -/
theorem detect_objects_ok (svc : MLService) (client : Client)
    (image_path content : String) (labels : List Label)
    (objs : List LocalizedObj) (lms : List Landmark) (lgs : List Logo)
    (hc : svc.client = some client)
    (hr : svc.read_file image_path = Except.ok content)
    (hlab : client.label_detection content = Except.ok labels)
    (hobj : client.object_localization content = Except.ok objs)
    (hlm : client.landmark_detection content = Except.ok lms)
    (hlg : client.logo_detection content = Except.ok lgs) :
    detect_objects svc image_path =
      remove_duplicates (collected_tags labels objs lms lgs) := by
  simp [detect_objects, collected_tags, hc, hr, hlab, hobj, hlm, hlg]

/-! ## Claim theorems -/

/-- C1: when the capability handle is absent, for every file-reading
environment and every image path, `generate_alt_text` returns exactly
"Image uploaded by user", `detect_objects` returns the empty sequence, and
`get_detailed_analysis` returns the fixed degraded record with field
`colors`. The service's `read_file` and the claim's path are universally
quantified, so neither a file read nor a remote call can influence the
result. -/
theorem claim_c1 (svc : MLService) (image_path : String)
    (h : svc.client = none) :
    generate_alt_text svc image_path = "Image uploaded by user" ∧
    detect_objects svc image_path = [] ∧
    get_detailed_analysis svc image_path =
      [("alt_text", FieldValue.s "Image uploaded by user"),
       ("objects", FieldValue.tags []),
       ("colors", FieldValue.cols []),
       ("text", FieldValue.s "")] := by
  refine ⟨?_, ?_, ?_⟩ <;>
    simp [generate_alt_text, detect_objects, get_detailed_analysis,
          degraded_record, h]

/-- C1 witness: a concrete service with a working file reader but no client. -/
theorem claim_c1_witness :
    generate_alt_text ⟨fun _ => Except.ok "bytes", none⟩ "img.png" =
      "Image uploaded by user" ∧
    detect_objects ⟨fun _ => Except.ok "bytes", none⟩ "img.png" = [] ∧
    get_detailed_analysis ⟨fun _ => Except.ok "bytes", none⟩ "img.png" =
      [("alt_text", FieldValue.s "Image uploaded by user"),
       ("objects", FieldValue.tags []),
       ("colors", FieldValue.cols []),
       ("text", FieldValue.s "")] :=
  claim_c1 ⟨fun _ => Except.ok "bytes", none⟩ "img.png" rfl

/-- C2: whenever at least one landmark is present, the produced alt text is
exactly the first landmark's description, with no label-derived sentence
appended, for every label list — in the standalone `generate_alt_text` path
and in the combined path through `_build_alt_text_from_response` and the
`alt_text` field of `get_detailed_analysis`. -/
theorem claim_c2 (svc : MLService) (client : Client)
    (image_path content : String) (labels : List Label)
    (lm : Landmark) (lms : List Landmark) (texts : List TextAnn)
    (response : AnnotateImageResponse)
    (hc : svc.client = some client)
    (hr : svc.read_file image_path = Except.ok content)
    (hl : client.label_detection content = Except.ok labels)
    (hm : client.landmark_detection content = Except.ok (lm :: lms))
    (ht : client.text_detection content = Except.ok texts)
    (ha : client.annotate_image content = Except.ok response)
    (hresp : response.landmark_annotations = lm :: lms) :
    generate_alt_text svc image_path = lm.description ∧
    build_alt_text_from_response response = lm.description ∧
    List.lookup "alt_text" (get_detailed_analysis svc image_path) =
      some (FieldValue.s lm.description) := by
  refine ⟨?_, ?_, ?_⟩
  · simp [generate_alt_text, hc, hr, hl, hm, ht, intercalate_singleton]
  · simp [build_alt_text_from_response, hresp, intercalate_singleton]
  · simp [get_detailed_analysis, hc, hr, ha, List.lookup,
          build_alt_text_from_response, hresp, intercalate_singleton]

/-- C2 witness: landmark "Eiffel Tower" together with labels tower, metal,
sky; the alt text is the landmark description alone on both paths. -/
theorem claim_c2_witness :
    generate_alt_text
      ⟨fun _ => Except.ok "c",
       some ⟨fun _ => Except.ok [⟨"tower", 9/10⟩, ⟨"metal", 4/5⟩, ⟨"sky", 7/10⟩],
             fun _ => Except.ok [⟨"Eiffel Tower"⟩],
             fun _ => Except.ok [],
             fun _ => Except.ok [],
             fun _ => Except.ok [],
             fun _ => Except.ok
               ⟨[⟨"tower", 9/10⟩, ⟨"metal", 4/5⟩, ⟨"sky", 7/10⟩], [],
                [⟨"Eiffel Tower"⟩], [], [], none⟩⟩⟩
      "img.png" = "Eiffel Tower" ∧
    build_alt_text_from_response
      ⟨[⟨"tower", 9/10⟩, ⟨"metal", 4/5⟩, ⟨"sky", 7/10⟩], [],
       [⟨"Eiffel Tower"⟩], [], [], none⟩ = "Eiffel Tower" ∧
    List.lookup "alt_text"
      (get_detailed_analysis
        ⟨fun _ => Except.ok "c",
         some ⟨fun _ => Except.ok [⟨"tower", 9/10⟩, ⟨"metal", 4/5⟩, ⟨"sky", 7/10⟩],
               fun _ => Except.ok [⟨"Eiffel Tower"⟩],
               fun _ => Except.ok [],
               fun _ => Except.ok [],
               fun _ => Except.ok [],
               fun _ => Except.ok
                 ⟨[⟨"tower", 9/10⟩, ⟨"metal", 4/5⟩, ⟨"sky", 7/10⟩], [],
                  [⟨"Eiffel Tower"⟩], [], [], none⟩⟩⟩
        "img.png") = some (FieldValue.s "Eiffel Tower") :=
  claim_c2 _ _ "img.png" "c"
    [⟨"tower", 9/10⟩, ⟨"metal", 4/5⟩, ⟨"sky", 7/10⟩]
    ⟨"Eiffel Tower"⟩ [] []
    ⟨[⟨"tower", 9/10⟩, ⟨"metal", 4/5⟩, ⟨"sky", 7/10⟩], [],
     [⟨"Eiffel Tower"⟩], [], [], none⟩
    rfl rfl rfl rfl rfl rfl rfl

/-- C3: with no landmarks and a nonempty label list, the produced alt text is
exactly "Image containing X, Y, Z" built from the descriptions of the first
three labels (all of them when fewer than three), in service order, in the
standalone `generate_alt_text` path and in the combined path through
`_build_alt_text_from_response` and the `alt_text` field of
`get_detailed_analysis`. -/
theorem claim_c3 (svc : MLService) (client : Client)
    (image_path content : String) (lab : Label) (labs : List Label)
    (texts : List TextAnn) (response : AnnotateImageResponse)
    (hc : svc.client = some client)
    (hr : svc.read_file image_path = Except.ok content)
    (hl : client.label_detection content = Except.ok (lab :: labs))
    (hm : client.landmark_detection content = Except.ok [])
    (ht : client.text_detection content = Except.ok texts)
    (ha : client.annotate_image content = Except.ok response)
    (hrlm : response.landmark_annotations = [])
    (hrlab : response.label_annotations = lab :: labs) :
    generate_alt_text svc image_path =
      "Image containing " ++
        String.intercalate ", " (((lab :: labs).take 3).map Label.description) ∧
    build_alt_text_from_response response =
      "Image containing " ++
        String.intercalate ", " (((lab :: labs).take 3).map Label.description) ∧
    List.lookup "alt_text" (get_detailed_analysis svc image_path) =
      some (FieldValue.s ("Image containing " ++
        String.intercalate ", " (((lab :: labs).take 3).map Label.description))) := by
  refine ⟨?_, ?_, ?_⟩
  · simp [generate_alt_text, hc, hr, hl, hm, ht, intercalate_singleton]
  · simp [build_alt_text_from_response, hrlm, hrlab, intercalate_singleton]
  · simp [get_detailed_analysis, hc, hr, ha, List.lookup,
          build_alt_text_from_response, hrlm, hrlab, intercalate_singleton]

/-- C3 witness: four labels cat, animal, pet, toy and no landmarks give
"Image containing cat, animal, pet" — first three only, original order. -/
theorem claim_c3_witness :
    generate_alt_text
      ⟨fun _ => Except.ok "c",
       some ⟨fun _ => Except.ok [⟨"cat", 9/10⟩, ⟨"animal", 4/5⟩,
                                 ⟨"pet", 7/10⟩, ⟨"toy", 3/5⟩],
             fun _ => Except.ok [],
             fun _ => Except.ok [],
             fun _ => Except.ok [],
             fun _ => Except.ok [],
             fun _ => Except.ok
               ⟨[⟨"cat", 9/10⟩, ⟨"animal", 4/5⟩, ⟨"pet", 7/10⟩, ⟨"toy", 3/5⟩],
                [], [], [], [], none⟩⟩⟩
      "img.png" = "Image containing cat, animal, pet" ∧
    build_alt_text_from_response
      ⟨[⟨"cat", 9/10⟩, ⟨"animal", 4/5⟩, ⟨"pet", 7/10⟩, ⟨"toy", 3/5⟩],
       [], [], [], [], none⟩ = "Image containing cat, animal, pet" ∧
    List.lookup "alt_text"
      (get_detailed_analysis
        ⟨fun _ => Except.ok "c",
         some ⟨fun _ => Except.ok [⟨"cat", 9/10⟩, ⟨"animal", 4/5⟩,
                                   ⟨"pet", 7/10⟩, ⟨"toy", 3/5⟩],
               fun _ => Except.ok [],
               fun _ => Except.ok [],
               fun _ => Except.ok [],
               fun _ => Except.ok [],
               fun _ => Except.ok
                 ⟨[⟨"cat", 9/10⟩, ⟨"animal", 4/5⟩, ⟨"pet", 7/10⟩, ⟨"toy", 3/5⟩],
                  [], [], [], [], none⟩⟩⟩
        "img.png") = some (FieldValue.s "Image containing cat, animal, pet") := by
  have h := claim_c3
    ⟨fun _ => Except.ok "c",
     some ⟨fun _ => Except.ok [⟨"cat", 9/10⟩, ⟨"animal", 4/5⟩,
                               ⟨"pet", 7/10⟩, ⟨"toy", 3/5⟩],
           fun _ => Except.ok [],
           fun _ => Except.ok [],
           fun _ => Except.ok [],
           fun _ => Except.ok [],
           fun _ => Except.ok
             ⟨[⟨"cat", 9/10⟩, ⟨"animal", 4/5⟩, ⟨"pet", 7/10⟩, ⟨"toy", 3/5⟩],
              [], [], [], [], none⟩⟩⟩
    _ "img.png" "c" ⟨"cat", 9/10⟩
    [⟨"animal", 4/5⟩, ⟨"pet", 7/10⟩, ⟨"toy", 3/5⟩] []
    ⟨[⟨"cat", 9/10⟩, ⟨"animal", 4/5⟩, ⟨"pet", 7/10⟩, ⟨"toy", 3/5⟩],
     [], [], [], [], none⟩
    rfl rfl rfl rfl rfl rfl rfl rfl
  exact ⟨h.1.trans rfl, h.2.1.trans rfl, h.2.2.trans rfl⟩

/-- C4: inclusion of a label or localized object is decided by the strict
threshold score > 1/2, in `detect_objects` and in
`_extract_objects_from_response` (the `objects` field of
`get_detailed_analysis`): with one label of score s and one localized object
of score t (distinct lowercased texts), each appears in the output exactly
when its score strictly exceeds one half. -/
theorem claim_c4 (svc : MLService) (client : Client)
    (image_path content : String) (d n : String) (s t : ℚ)
    (response : AnnotateImageResponse)
    (hc : svc.client = some client)
    (hr : svc.read_file image_path = Except.ok content)
    (hlab : client.label_detection content = Except.ok [⟨d, s⟩])
    (hobj : client.object_localization content = Except.ok [⟨n, t⟩])
    (hlm : client.landmark_detection content = Except.ok [])
    (hlg : client.logo_detection content = Except.ok [])
    (hrlab : response.label_annotations = [⟨d, s⟩])
    (hrobj : response.localized_object_annotations = [⟨n, t⟩])
    (hdn : str_lower d ≠ str_lower n) :
    (str_lower d ∈ detect_objects svc image_path ↔ s > 1 / 2) ∧
    (str_lower n ∈ detect_objects svc image_path ↔ t > 1 / 2) ∧
    (str_lower d ∈ extract_objects_from_response response ↔ s > 1 / 2) ∧
    (str_lower n ∈ extract_objects_from_response response ↔ t > 1 / 2) := by
  rw [detect_objects_ok svc client image_path content _ _ _ _
        hc hr hlab hobj hlm hlg]
  by_cases hs : (2 : ℚ)⁻¹ < s <;> by_cases ht2 : (2 : ℚ)⁻¹ < t <;>
    refine ⟨?_, ?_, ?_, ?_⟩ <;>
      simp [extract_objects_from_response, collected_tags, hrlab, hrobj,
            mem_remove_duplicates, List.filter, half_eq, hdn, Ne.symm hdn,
            hs, ht2]

/-- C4 witness: a label "cat" at score exactly 1/2 is excluded, a localized
object "dog" at score 51/100 is included, on both extraction paths. -/
theorem claim_c4_witness :
    (str_lower "cat" ∉ detect_objects
      ⟨fun _ => Except.ok "c",
       some ⟨fun _ => Except.ok [⟨"cat", 1/2⟩],
             fun _ => Except.ok [],
             fun _ => Except.ok [],
             fun _ => Except.ok [⟨"dog", 51/100⟩],
             fun _ => Except.ok [],
             fun _ => Except.ok
               ⟨[⟨"cat", 1/2⟩], [⟨"dog", 51/100⟩], [], [], [], none⟩⟩⟩
      "img.png") ∧
    (str_lower "dog" ∈ detect_objects
      ⟨fun _ => Except.ok "c",
       some ⟨fun _ => Except.ok [⟨"cat", 1/2⟩],
             fun _ => Except.ok [],
             fun _ => Except.ok [],
             fun _ => Except.ok [⟨"dog", 51/100⟩],
             fun _ => Except.ok [],
             fun _ => Except.ok
               ⟨[⟨"cat", 1/2⟩], [⟨"dog", 51/100⟩], [], [], [], none⟩⟩⟩
      "img.png") ∧
    (str_lower "cat" ∉ extract_objects_from_response
      ⟨[⟨"cat", 1/2⟩], [⟨"dog", 51/100⟩], [], [], [], none⟩) ∧
    (str_lower "dog" ∈ extract_objects_from_response
      ⟨[⟨"cat", 1/2⟩], [⟨"dog", 51/100⟩], [], [], [], none⟩) := by
  have h := claim_c4
    ⟨fun _ => Except.ok "c",
     some ⟨fun _ => Except.ok [⟨"cat", 1/2⟩],
           fun _ => Except.ok [],
           fun _ => Except.ok [],
           fun _ => Except.ok [⟨"dog", 51/100⟩],
           fun _ => Except.ok [],
           fun _ => Except.ok
             ⟨[⟨"cat", 1/2⟩], [⟨"dog", 51/100⟩], [], [], [], none⟩⟩⟩
    _ "img.png" "c" "cat" "dog" (1/2) (51/100)
    ⟨[⟨"cat", 1/2⟩], [⟨"dog", 51/100⟩], [], [], [], none⟩
    rfl rfl rfl rfl rfl rfl rfl rfl (by decide)
  refine ⟨fun hm => ?_, ?_, fun hm => ?_, ?_⟩
  · exact absurd (h.1.mp hm) (by norm_num)
  · exact h.2.1.mpr (by norm_num)
  · exact absurd (h.2.2.1.mp hm) (by norm_num)
  · exact h.2.2.2.mpr (by norm_num)

/-- C5: on the all-calls-succeed path, `detect_objects` returns the
first-occurrence-preserving deduplication (the library's `List.eraseDups`) of
the concatenation, in the fixed order labels-objects-landmarks-logos, of the
thresholded lowercased label descriptions, thresholded lowercased object
names, all lowercased landmark descriptions and all lowercased logo
descriptions; the result has no duplicates, keeps exactly the members of the
concatenation, and is a subsequence of it (so order is preserved); and the
deduplication sends ["cat", "dog", "cat", "bird"] to ["cat", "dog", "bird"]. -/
theorem claim_c5 (svc : MLService) (client : Client)
    (image_path content : String) (labels : List Label)
    (objs : List LocalizedObj) (lms : List Landmark) (lgs : List Logo)
    (hc : svc.client = some client)
    (hr : svc.read_file image_path = Except.ok content)
    (hlab : client.label_detection content = Except.ok labels)
    (hobj : client.object_localization content = Except.ok objs)
    (hlm : client.landmark_detection content = Except.ok lms)
    (hlg : client.logo_detection content = Except.ok lgs) :
    detect_objects svc image_path =
      (collected_tags labels objs lms lgs).eraseDups ∧
    (detect_objects svc image_path).Nodup ∧
    (∀ x, x ∈ detect_objects svc image_path ↔
       x ∈ collected_tags labels objs lms lgs) ∧
    List.Sublist (detect_objects svc image_path)
      (collected_tags labels objs lms lgs) ∧
    remove_duplicates ["cat", "dog", "cat", "bird"] = ["cat", "dog", "bird"] := by
  have h := detect_objects_ok svc client image_path content labels objs lms lgs
    hc hr hlab hobj hlm hlg
  rw [h]
  exact ⟨remove_duplicates_eq_eraseDups _,
         dedup_seen_nodup _ _,
         fun x => mem_remove_duplicates _ x,
         dedup_seen_sublist _ _,
         by decide⟩

/-- C5 witness: labels cat and dog, localized object cat again, landmark
Eiffel Tower, no logos; the instantiated statement is closed. -/
theorem claim_c5_witness :
    detect_objects
      ⟨fun _ => Except.ok "c",
       some ⟨fun _ => Except.ok [⟨"Cat", 9/10⟩, ⟨"Dog", 4/5⟩],
             fun _ => Except.ok [⟨"Eiffel Tower"⟩],
             fun _ => Except.ok [],
             fun _ => Except.ok [⟨"Cat", 7/10⟩],
             fun _ => Except.ok [],
             fun _ => Except.error ()⟩⟩
      "img.png" =
      (collected_tags [⟨"Cat", 9/10⟩, ⟨"Dog", 4/5⟩] [⟨"Cat", 7/10⟩]
        [⟨"Eiffel Tower"⟩] []).eraseDups ∧
    (detect_objects
      ⟨fun _ => Except.ok "c",
       some ⟨fun _ => Except.ok [⟨"Cat", 9/10⟩, ⟨"Dog", 4/5⟩],
             fun _ => Except.ok [⟨"Eiffel Tower"⟩],
             fun _ => Except.ok [],
             fun _ => Except.ok [⟨"Cat", 7/10⟩],
             fun _ => Except.ok [],
             fun _ => Except.error ()⟩⟩
      "img.png").Nodup ∧
    (∀ x, x ∈ detect_objects
      ⟨fun _ => Except.ok "c",
       some ⟨fun _ => Except.ok [⟨"Cat", 9/10⟩, ⟨"Dog", 4/5⟩],
             fun _ => Except.ok [⟨"Eiffel Tower"⟩],
             fun _ => Except.ok [],
             fun _ => Except.ok [⟨"Cat", 7/10⟩],
             fun _ => Except.ok [],
             fun _ => Except.error ()⟩⟩
      "img.png" ↔
      x ∈ collected_tags [⟨"Cat", 9/10⟩, ⟨"Dog", 4/5⟩] [⟨"Cat", 7/10⟩]
        [⟨"Eiffel Tower"⟩] []) ∧
    List.Sublist
      (detect_objects
        ⟨fun _ => Except.ok "c",
         some ⟨fun _ => Except.ok [⟨"Cat", 9/10⟩, ⟨"Dog", 4/5⟩],
               fun _ => Except.ok [⟨"Eiffel Tower"⟩],
               fun _ => Except.ok [],
               fun _ => Except.ok [⟨"Cat", 7/10⟩],
               fun _ => Except.ok [],
               fun _ => Except.error ()⟩⟩
        "img.png")
      (collected_tags [⟨"Cat", 9/10⟩, ⟨"Dog", 4/5⟩] [⟨"Cat", 7/10⟩]
        [⟨"Eiffel Tower"⟩] []) ∧
    remove_duplicates ["cat", "dog", "cat", "bird"] = ["cat", "dog", "bird"] :=
  claim_c5
    ⟨fun _ => Except.ok "c",
     some ⟨fun _ => Except.ok [⟨"Cat", 9/10⟩, ⟨"Dog", 4/5⟩],
           fun _ => Except.ok [⟨"Eiffel Tower"⟩],
           fun _ => Except.ok [],
           fun _ => Except.ok [⟨"Cat", 7/10⟩],
           fun _ => Except.ok [],
           fun _ => Except.error ()⟩⟩
    _ "img.png" "c" [⟨"Cat", 9/10⟩, ⟨"Dog", 4/5⟩] [⟨"Cat", 7/10⟩]
    [⟨"Eiffel Tower"⟩] []
    rfl rfl rfl rfl rfl rfl

/-- C6: the `objects` field of `get_detailed_analysis` is the
first-occurrence-preserving deduplication of thresholded lowercased labels
followed by thresholded lowercased localized objects only: it is unchanged
under any change of the landmark and logo annotations, it equals the
labels-then-objects reduction, it is empty on a response holding only a
landmark and a logo — while `detect_objects` on the same annotation data
returns both of them, the documented divergence. -/
theorem claim_c6 (svc : MLService) (client : Client)
    (image_path content : String) (r1 r2 : AnnotateImageResponse)
    (hc : svc.client = some client)
    (hr : svc.read_file image_path = Except.ok content)
    (ha : client.annotate_image content = Except.ok r1)
    (hlab : r1.label_annotations = r2.label_annotations)
    (hobj : r1.localized_object_annotations = r2.localized_object_annotations) :
    extract_objects_from_response r1 = extract_objects_from_response r2 ∧
    extract_objects_from_response r1 =
      remove_duplicates
        ((r1.label_annotations.filter (fun l => decide (l.score > (0.5 : ℚ)))).map
            (fun l => str_lower l.description)
          ++ (r1.localized_object_annotations.filter
                (fun o => decide (o.score > (0.5 : ℚ)))).map
            (fun o => str_lower o.name)) ∧
    List.lookup "objects" (get_detailed_analysis svc image_path) =
      some (FieldValue.tags (extract_objects_from_response r1)) ∧
    extract_objects_from_response
      ⟨[], [], [⟨"Eiffel Tower"⟩], [⟨"Acme"⟩], [], none⟩ = [] ∧
    detect_objects
      ⟨fun _ => Except.ok "c",
       some ⟨fun _ => Except.ok [],
             fun _ => Except.ok [⟨"Eiffel Tower"⟩],
             fun _ => Except.ok [],
             fun _ => Except.ok [],
             fun _ => Except.ok [⟨"Acme"⟩],
             fun _ => Except.error ()⟩⟩
      "img.png" = ["eiffel tower", "acme"] := by
  refine ⟨?_, rfl, ?_, by decide, by decide⟩
  · simp [extract_objects_from_response, hlab, hobj]
  · simp [get_detailed_analysis, hc, hr, ha, List.lookup]

/-- C6 witness: two responses sharing labels (cat) and localized objects
(none) but differing entirely in landmarks and logos give the same
`objects` value. -/
theorem claim_c6_witness :
    extract_objects_from_response
      ⟨[⟨"Cat", 9/10⟩], [], [⟨"Eiffel Tower"⟩], [⟨"Acme"⟩], [], none⟩ =
      extract_objects_from_response
        ⟨[⟨"Cat", 9/10⟩], [], [], [], [], none⟩ ∧
    extract_objects_from_response
      ⟨[⟨"Cat", 9/10⟩], [], [⟨"Eiffel Tower"⟩], [⟨"Acme"⟩], [], none⟩ =
      remove_duplicates
        ((([⟨"Cat", 9/10⟩] : List Label).filter
            (fun l => decide (l.score > (0.5 : ℚ)))).map
            (fun l => str_lower l.description)
          ++ (([] : List LocalizedObj).filter
                (fun o => decide (o.score > (0.5 : ℚ)))).map
            (fun o => str_lower o.name)) ∧
    List.lookup "objects"
      (get_detailed_analysis
        ⟨fun _ => Except.ok "c",
         some ⟨fun _ => Except.ok [],
               fun _ => Except.ok [],
               fun _ => Except.ok [],
               fun _ => Except.ok [],
               fun _ => Except.ok [],
               fun _ => Except.ok
                 ⟨[⟨"Cat", 9/10⟩], [], [⟨"Eiffel Tower"⟩], [⟨"Acme"⟩],
                  [], none⟩⟩⟩
        "img.png") =
      some (FieldValue.tags (extract_objects_from_response
        ⟨[⟨"Cat", 9/10⟩], [], [⟨"Eiffel Tower"⟩], [⟨"Acme"⟩], [], none⟩)) ∧
    extract_objects_from_response
      ⟨[], [], [⟨"Eiffel Tower"⟩], [⟨"Acme"⟩], [], none⟩ = [] ∧
    detect_objects
      ⟨fun _ => Except.ok "c",
       some ⟨fun _ => Except.ok [],
             fun _ => Except.ok [⟨"Eiffel Tower"⟩],
             fun _ => Except.ok [],
             fun _ => Except.ok [],
             fun _ => Except.ok [⟨"Acme"⟩],
             fun _ => Except.error ()⟩⟩
      "img.png" = ["eiffel tower", "acme"] :=
  claim_c6
    ⟨fun _ => Except.ok "c",
     some ⟨fun _ => Except.ok [],
           fun _ => Except.ok [],
           fun _ => Except.ok [],
           fun _ => Except.ok [],
           fun _ => Except.ok [],
           fun _ => Except.ok
             ⟨[⟨"Cat", 9/10⟩], [], [⟨"Eiffel Tower"⟩], [⟨"Acme"⟩], [], none⟩⟩⟩
    _ "img.png" "c"
    ⟨[⟨"Cat", 9/10⟩], [], [⟨"Eiffel Tower"⟩], [⟨"Acme"⟩], [], none⟩
    ⟨[⟨"Cat", 9/10⟩], [], [], [], [], none⟩
    rfl rfl rfl rfl rfl

/-- C7: the `dominant_colors` field of `get_detailed_analysis` is the first
min(3, n) entries of the service's ranked dominant-colour list, in the same
order, each mapped to its (red, green, blue, score) values unmodified — it
equals the take-3 prefix of the service-order mapped list and its length is
min 3 n — and a response with no image-properties annotation yields the
empty sequence. -/
theorem claim_c7 (svc : MLService) (client : Client)
    (image_path content : String) (response r0 : AnnotateImageResponse)
    (props : ImageProps)
    (hc : svc.client = some client)
    (hr : svc.read_file image_path = Except.ok content)
    (ha : client.annotate_image content = Except.ok response)
    (hp : response.image_properties = some props)
    (h0 : r0.image_properties = none) :
    extract_colors_from_response response =
      (props.dominant_colors.colors.map
        (fun c => (c.color.red, c.color.green, c.color.blue, c.score))).take 3 ∧
    (extract_colors_from_response response).length =
      min 3 props.dominant_colors.colors.length ∧
    List.lookup "dominant_colors" (get_detailed_analysis svc image_path) =
      some (FieldValue.cols (extract_colors_from_response response)) ∧
    extract_colors_from_response r0 = [] := by
  refine ⟨?_, ?_, ?_, ?_⟩
  · simp [extract_colors_from_response, hp, List.map_take]
  · simp [extract_colors_from_response, hp]
  · simp [get_detailed_analysis, hc, hr, ha, List.lookup]
  · simp [extract_colors_from_response, h0]

/-- C7 witness: five ranked colours; the field keeps the first three in
order with channels and scores untouched, and the length is min 3 5 = 3. -/
theorem claim_c7_witness :
    extract_colors_from_response
      ⟨[], [], [], [], [],
       some ⟨⟨[⟨⟨1, 2, 3⟩, 9/10⟩, ⟨⟨4, 5, 6⟩, 4/5⟩, ⟨⟨7, 8, 9⟩, 7/10⟩,
               ⟨⟨10, 11, 12⟩, 3/5⟩, ⟨⟨13, 14, 15⟩, 1/2⟩]⟩⟩⟩ =
      (([⟨⟨1, 2, 3⟩, 9/10⟩, ⟨⟨4, 5, 6⟩, 4/5⟩, ⟨⟨7, 8, 9⟩, 7/10⟩,
         ⟨⟨10, 11, 12⟩, 3/5⟩, ⟨⟨13, 14, 15⟩, 1/2⟩] : List DomColor).map
        (fun c => (c.color.red, c.color.green, c.color.blue, c.score))).take 3 ∧
    (extract_colors_from_response
      ⟨[], [], [], [], [],
       some ⟨⟨[⟨⟨1, 2, 3⟩, 9/10⟩, ⟨⟨4, 5, 6⟩, 4/5⟩, ⟨⟨7, 8, 9⟩, 7/10⟩,
               ⟨⟨10, 11, 12⟩, 3/5⟩, ⟨⟨13, 14, 15⟩, 1/2⟩]⟩⟩⟩).length =
      min 3 ([⟨⟨1, 2, 3⟩, 9/10⟩, ⟨⟨4, 5, 6⟩, 4/5⟩, ⟨⟨7, 8, 9⟩, 7/10⟩,
              ⟨⟨10, 11, 12⟩, 3/5⟩, ⟨⟨13, 14, 15⟩, 1/2⟩] : List DomColor).length ∧
    List.lookup "dominant_colors"
      (get_detailed_analysis
        ⟨fun _ => Except.ok "c",
         some ⟨fun _ => Except.ok [],
               fun _ => Except.ok [],
               fun _ => Except.ok [],
               fun _ => Except.ok [],
               fun _ => Except.ok [],
               fun _ => Except.ok
                 ⟨[], [], [], [], [],
                  some ⟨⟨[⟨⟨1, 2, 3⟩, 9/10⟩, ⟨⟨4, 5, 6⟩, 4/5⟩, ⟨⟨7, 8, 9⟩, 7/10⟩,
                          ⟨⟨10, 11, 12⟩, 3/5⟩, ⟨⟨13, 14, 15⟩, 1/2⟩]⟩⟩⟩⟩⟩
        "img.png") =
      some (FieldValue.cols (extract_colors_from_response
        ⟨[], [], [], [], [],
         some ⟨⟨[⟨⟨1, 2, 3⟩, 9/10⟩, ⟨⟨4, 5, 6⟩, 4/5⟩, ⟨⟨7, 8, 9⟩, 7/10⟩,
                 ⟨⟨10, 11, 12⟩, 3/5⟩, ⟨⟨13, 14, 15⟩, 1/2⟩]⟩⟩⟩)) ∧
    extract_colors_from_response ⟨[], [], [], [], [], none⟩ = [] :=
  claim_c7
    ⟨fun _ => Except.ok "c",
     some ⟨fun _ => Except.ok [],
           fun _ => Except.ok [],
           fun _ => Except.ok [],
           fun _ => Except.ok [],
           fun _ => Except.ok [],
           fun _ => Except.ok
             ⟨[], [], [], [], [],
              some ⟨⟨[⟨⟨1, 2, 3⟩, 9/10⟩, ⟨⟨4, 5, 6⟩, 4/5⟩, ⟨⟨7, 8, 9⟩, 7/10⟩,
                      ⟨⟨10, 11, 12⟩, 3/5⟩, ⟨⟨13, 14, 15⟩, 1/2⟩]⟩⟩⟩⟩⟩
    _ "img.png" "c"
    ⟨[], [], [], [], [],
     some ⟨⟨[⟨⟨1, 2, 3⟩, 9/10⟩, ⟨⟨4, 5, 6⟩, 4/5⟩, ⟨⟨7, 8, 9⟩, 7/10⟩,
             ⟨⟨10, 11, 12⟩, 3/5⟩, ⟨⟨13, 14, 15⟩, 1/2⟩]⟩⟩⟩
    ⟨[], [], [], [], [], none⟩
    ⟨⟨[⟨⟨1, 2, 3⟩, 9/10⟩, ⟨⟨4, 5, 6⟩, 4/5⟩, ⟨⟨7, 8, 9⟩, 7/10⟩,
       ⟨⟨10, 11, 12⟩, 3/5⟩, ⟨⟨13, 14, 15⟩, 1/2⟩]⟩⟩
    rfl rfl rfl rfl rfl

/-- C8: every degraded or error run of `get_detailed_analysis` (absent
client, failed file read, failed combined call) returns exactly the fixed
record whose colour field is named `colors` with value [], while every
successful run returns a record keyed `alt_text`, `objects`,
`dominant_colors`, `text` — the field-name asymmetry: the degraded record
has `colors` but no `dominant_colors` key, the success record has
`dominant_colors` but no `colors` key. -/
theorem claim_c8 (svc0 svc1 svc2 svc3 : MLService)
    (client1 client2 client3 : Client) (image_path content : String)
    (response : AnnotateImageResponse)
    (h0 : svc0.client = none)
    (h1 : svc1.client = some client1)
    (hr1 : svc1.read_file image_path = Except.error ())
    (h2 : svc2.client = some client2)
    (hr2 : svc2.read_file image_path = Except.ok content)
    (ha2 : client2.annotate_image content = Except.error ())
    (h3 : svc3.client = some client3)
    (hr3 : svc3.read_file image_path = Except.ok content)
    (ha3 : client3.annotate_image content = Except.ok response) :
    get_detailed_analysis svc0 image_path = degraded_record ∧
    get_detailed_analysis svc1 image_path = degraded_record ∧
    get_detailed_analysis svc2 image_path = degraded_record ∧
    degraded_record =
      [("alt_text", FieldValue.s "Image uploaded by user"),
       ("objects", FieldValue.tags []),
       ("colors", FieldValue.cols []),
       ("text", FieldValue.s "")] ∧
    List.lookup "colors" degraded_record = some (FieldValue.cols []) ∧
    List.lookup "dominant_colors" degraded_record = none ∧
    (get_detailed_analysis svc3 image_path).map Prod.fst =
      ["alt_text", "objects", "dominant_colors", "text"] ∧
    List.lookup "colors" (get_detailed_analysis svc3 image_path) = none := by
  refine ⟨?_, ?_, ?_, rfl, by decide, by decide, ?_, ?_⟩
  · simp [get_detailed_analysis, h0]
  · simp [get_detailed_analysis, h1, hr1]
  · simp [get_detailed_analysis, h2, hr2, ha2]
  · simp [get_detailed_analysis, h3, hr3, ha3]
  · simp [get_detailed_analysis, h3, hr3, ha3, List.lookup]

/-- C8 witness: a clientless service, a failing file read, a failing
combined call, and one successful run over an empty response. -/
theorem claim_c8_witness :
    get_detailed_analysis ⟨fun _ => Except.ok "c", none⟩ "img.png" =
      degraded_record ∧
    get_detailed_analysis
      ⟨fun _ => Except.error (),
       some ⟨fun _ => Except.ok [], fun _ => Except.ok [], fun _ => Except.ok [],
             fun _ => Except.ok [], fun _ => Except.ok [],
             fun _ => Except.ok ⟨[], [], [], [], [], none⟩⟩⟩ "img.png" =
      degraded_record ∧
    get_detailed_analysis
      ⟨fun _ => Except.ok "c",
       some ⟨fun _ => Except.ok [], fun _ => Except.ok [], fun _ => Except.ok [],
             fun _ => Except.ok [], fun _ => Except.ok [],
             fun _ => Except.error ()⟩⟩ "img.png" =
      degraded_record ∧
    degraded_record =
      [("alt_text", FieldValue.s "Image uploaded by user"),
       ("objects", FieldValue.tags []),
       ("colors", FieldValue.cols []),
       ("text", FieldValue.s "")] ∧
    List.lookup "colors" degraded_record = some (FieldValue.cols []) ∧
    List.lookup "dominant_colors" degraded_record = none ∧
    (get_detailed_analysis
      ⟨fun _ => Except.ok "c",
       some ⟨fun _ => Except.ok [], fun _ => Except.ok [], fun _ => Except.ok [],
             fun _ => Except.ok [], fun _ => Except.ok [],
             fun _ => Except.ok ⟨[], [], [], [], [], none⟩⟩⟩ "img.png").map
      Prod.fst = ["alt_text", "objects", "dominant_colors", "text"] ∧
    List.lookup "colors"
      (get_detailed_analysis
        ⟨fun _ => Except.ok "c",
         some ⟨fun _ => Except.ok [], fun _ => Except.ok [], fun _ => Except.ok [],
               fun _ => Except.ok [], fun _ => Except.ok [],
               fun _ => Except.ok ⟨[], [], [], [], [], none⟩⟩⟩ "img.png") =
      none :=
  claim_c8
    ⟨fun _ => Except.ok "c", none⟩
    ⟨fun _ => Except.error (),
     some ⟨fun _ => Except.ok [], fun _ => Except.ok [], fun _ => Except.ok [],
           fun _ => Except.ok [], fun _ => Except.ok [],
           fun _ => Except.ok ⟨[], [], [], [], [], none⟩⟩⟩
    ⟨fun _ => Except.ok "c",
     some ⟨fun _ => Except.ok [], fun _ => Except.ok [], fun _ => Except.ok [],
           fun _ => Except.ok [], fun _ => Except.ok [],
           fun _ => Except.error ()⟩⟩
    ⟨fun _ => Except.ok "c",
     some ⟨fun _ => Except.ok [], fun _ => Except.ok [], fun _ => Except.ok [],
           fun _ => Except.ok [], fun _ => Except.ok [],
           fun _ => Except.ok ⟨[], [], [], [], [], none⟩⟩⟩
    _ _ _ "img.png" "c" ⟨[], [], [], [], [], none⟩
    rfl rfl rfl rfl rfl rfl rfl rfl rfl

/-- C9: the fetched text annotations never influence `generate_alt_text`:
two runs over services agreeing on the file read, label detection and
landmark detection, whose text detections both succeed but may return
anything, produce the identical string. -/
theorem claim_c9 (svc1 svc2 : MLService) (c1 c2 : Client)
    (image_path content : String) (labels : List Label)
    (lms : List Landmark) (ts1 ts2 : List TextAnn)
    (h1 : svc1.client = some c1) (h2 : svc2.client = some c2)
    (hr1 : svc1.read_file image_path = Except.ok content)
    (hr2 : svc2.read_file image_path = Except.ok content)
    (hl1 : c1.label_detection content = Except.ok labels)
    (hl2 : c2.label_detection content = Except.ok labels)
    (hm1 : c1.landmark_detection content = Except.ok lms)
    (hm2 : c2.landmark_detection content = Except.ok lms)
    (ht1 : c1.text_detection content = Except.ok ts1)
    (ht2 : c2.text_detection content = Except.ok ts2) :
    generate_alt_text svc1 image_path = generate_alt_text svc2 image_path := by
  simp [generate_alt_text, h1, h2, hr1, hr2, hl1, hl2, hm1, hm2, ht1, ht2]

/-- C9 witness: two services identical except for the text-detection result
("STOP" versus nothing) return the same alt text. -/
theorem claim_c9_witness :
    generate_alt_text
      ⟨fun _ => Except.ok "c",
       some ⟨fun _ => Except.ok [⟨"cat", 9/10⟩],
             fun _ => Except.ok [],
             fun _ => Except.ok [⟨"STOP"⟩],
             fun _ => Except.ok [],
             fun _ => Except.ok [],
             fun _ => Except.error ()⟩⟩
      "img.png" =
    generate_alt_text
      ⟨fun _ => Except.ok "c",
       some ⟨fun _ => Except.ok [⟨"cat", 9/10⟩],
             fun _ => Except.ok [],
             fun _ => Except.ok [],
             fun _ => Except.ok [],
             fun _ => Except.ok [],
             fun _ => Except.error ()⟩⟩
      "img.png" :=
  claim_c9
    ⟨fun _ => Except.ok "c",
     some ⟨fun _ => Except.ok [⟨"cat", 9/10⟩],
           fun _ => Except.ok [],
           fun _ => Except.ok [⟨"STOP"⟩],
           fun _ => Except.ok [],
           fun _ => Except.ok [],
           fun _ => Except.error ()⟩⟩
    ⟨fun _ => Except.ok "c",
     some ⟨fun _ => Except.ok [⟨"cat", 9/10⟩],
           fun _ => Except.ok [],
           fun _ => Except.ok [],
           fun _ => Except.ok [],
           fun _ => Except.ok [],
           fun _ => Except.error ()⟩⟩
    _ _ "img.png" "c" [⟨"cat", 9/10⟩] [] [⟨"STOP"⟩] []
    rfl rfl rfl rfl rfl rfl rfl rfl rfl rfl

/-- The concrete service used for C10: the remote landmark detection finds
one landmark whose description is the empty string, and the combined call
returns the matching response. -/
def c10_service : MLService :=
  ⟨fun _ => Except.ok "c",
   some ⟨fun _ => Except.ok [⟨"tower", 9/10⟩],
         fun _ => Except.ok [⟨""⟩],
         fun _ => Except.ok [],
         fun _ => Except.ok [],
         fun _ => Except.ok [],
         fun _ => Except.ok
           ⟨[⟨"tower", 9/10⟩], [], [⟨""⟩], [], [], none⟩⟩⟩

/-- C10: when the first landmark's description is the empty string, both
`generate_alt_text` and the `alt_text` field of `get_detailed_analysis`
return the empty string, not the fallback: an empty landmark description
still counts as a produced fragment, so the fallback does not trigger. -/
theorem claim_c10 :
    generate_alt_text c10_service "img.png" = "" ∧
    build_alt_text_from_response
      ⟨[⟨"tower", 9/10⟩], [], [⟨""⟩], [], [], none⟩ = "" ∧
    List.lookup "alt_text" (get_detailed_analysis c10_service "img.png") =
      some (FieldValue.s "") ∧
    "" ≠ "Image uploaded by user" := by
  refine ⟨?_, ?_, ?_, by decide⟩
  · simp [generate_alt_text, c10_service, intercalate_singleton]
  · simp [build_alt_text_from_response, intercalate_singleton]
  · simp [get_detailed_analysis, c10_service, List.lookup,
          build_alt_text_from_response, intercalate_singleton]

end MomentsML
